import Mathlib

/-!
Verification of `src/tlsconfig.rs` of the flexible-hyper-server-tls crate.

The module under verification is a thin adapter: it reads a certificate PEM
source and a key PEM source, decodes zero-or-more certificate entries and
exactly one private key, hands them to the external TLS engine's
configuration builder (`rustls::ServerConfig::builder()...with_single_cert`),
sets the ALPN protocol list according to an `HttpProtocol` selector, and wraps
the configuration into a `TlsAcceptor`.

Modelling choices:
* The PEM scanning primitive (`rustls_pemfile`) is an external collaborator.
  A PEM input is therefore modelled at the level of its decoded block
  sequence: a `PemStream` is the list of outcomes the scanner produces, each
  pull either yielding one decoded `Item` or reporting malformed
  base64/PEM framing.  An empty or fully non-PEM input produces the empty
  outcome list.
* The engine's cryptographic certificate/key check inside `with_single_cert`
  is external; it is modelled as an abstract `TlsEngine` whose
  `single_cert_err` returns `none` on acceptance or `some msg` on rejection.
* `Box<dyn Error>` in the source is modelled as the inductive
  `TlsBuildError`; each variant corresponds to one distinct origin of an
  error value in the source and carries the human-readable cause attached
  there.
-/

namespace FlexTls

/-- DER payload bytes of a decoded PEM block, one byte value per entry. -/
abbrev Bytes := List Nat

/-- The bytes of an ASCII byte-string literal such as `b"h2"` in the source. -/
def asciiBytes (s : String) : Bytes :=
  s.data.map Char.toNat

/-- `rustls_pemfile::Item`: one decoded PEM block, classified by its label.
`X509Certificate` is a `CERTIFICATE` block, `RSAKey` / `PKCS8Key` / `ECKey`
are the three recognized private-key labels, and `Crl` stands for any other
recognized PEM construct (matched by the `_` arm in the source). -/
inductive Item where
  | X509Certificate (data : Bytes)
  | RSAKey (data : Bytes)
  | PKCS8Key (data : Bytes)
  | ECKey (data : Bytes)
  | Crl (data : Bytes)
deriving DecidableEq, Repr

/-- The DER payload carried by a decoded PEM block. -/
def Item.data : Item → Bytes
  | .X509Certificate d | .RSAKey d | .PKCS8Key d | .ECKey d | .Crl d => d

/-- Whether a decoded block is one of the three recognized private-key kinds
(the three labels accepted by the key `match` in the source). -/
def Item.is_key_kind : Item → Bool
  | .RSAKey _ | .PKCS8Key _ | .ECKey _ => true
  | _ => false

/-- Whether a decoded block is a `CERTIFICATE` block. -/
def Item.is_certificate : Item → Bool
  | .X509Certificate _ => true
  | _ => false

/-- A PEM input stream, modelled as the sequence of outcomes the external PEM
scanning primitive produces on it: each pull either decodes one item or
reports malformed base64/PEM framing with a message.  An empty or fully
malformed (no recognizable block framing) input is the empty sequence. -/
abbrev PemStream := List (Except String Item)

/-- `rustls_pemfile::read_one`: pull the first decoded PEM block from the
stream, `none` at end of input, or an error on malformed framing. -/
def read_one : PemStream → Except String (Option Item)
  | [] => .ok none
  | .error e :: _ => .error e
  | .ok i :: _ => .ok (some i)

/-- `rustls_pemfile::certs`: read the whole stream, collecting the payloads of
all `CERTIFICATE` blocks in the order encountered and skipping every other
block; fail on malformed framing. -/
def certs : PemStream → Except String (List Bytes)
  | [] => .ok []
  | .error e :: _ => .error e
  | .ok (.X509Certificate d) :: rest => (certs rest).map (fun cs => d :: cs)
  | .ok _ :: rest => certs rest

/-- The `HttpProtocol` selector from the source. -/
inductive HttpProtocol where
  | Http1
  | Http2
  | Both
deriving DecidableEq, Repr

/-- The observable part of `rustls::server::ServerConfig` that this adapter
determines: the certificate chain and private key given to
`with_single_cert`, the client-auth policy, and the ALPN protocol list. -/
structure ServerConfig where
  cert_chain : List Bytes
  key : Bytes
  client_auth_required : Bool
  alpn_protocols : List Bytes
deriving DecidableEq, Repr

/-- `tokio_rustls::TlsAcceptor`: a handle wrapping the finished server
configuration (`TlsAcceptor::from(Arc::new(cfg))`). -/
structure TlsAcceptor where
  config : ServerConfig
deriving DecidableEq, Repr

/-- The failure values of the two entry points.  The source returns
`Box<dyn Error>`; each variant here corresponds to one distinct origin of an
error value in the source and carries the human-readable cause the source
attaches there:
* `IoError` — `File::open` failure in `get_tlsacceptor_from_files`;
* `PemParseError` — an error returned by the PEM scanner (`rustls_pemfile`);
* `NoKeyDataError` — the `"no valid pem data in key data"` string error;
* `UnsupportedKeyKindError` — the `"no private key in key data"` string error;
* `TlsConfigError` — an error returned by `with_single_cert`. -/
inductive TlsBuildError where
  | IoError (msg : String)
  | PemParseError (msg : String)
  | NoKeyDataError (msg : String)
  | UnsupportedKeyKindError (msg : String)
  | TlsConfigError (msg : String)
deriving DecidableEq, Repr

/-- The human-readable cause carried by a failure value. -/
def TlsBuildError.message : TlsBuildError → String
  | .IoError m | .PemParseError m | .NoKeyDataError m
  | .UnsupportedKeyKindError m | .TlsConfigError m => m

/-- Modelled from the spec: the external TLS engine's server-configuration
builder (steps `ServerConfig::builder().with_safe_defaults()
.with_no_client_auth().with_single_cert(certs, key)` in the source) performs
a cryptographic check of the certificate/key pairing that is not part of this
repository.  `single_cert_err certs key = none` means the engine accepts the
pair; `some msg` means it rejects it with error message `msg`. -/
structure TlsEngine where
  single_cert_err : List Bytes → Bytes → Option String

/-- `with_single_cert` on a builder with safe defaults and no client auth:
either the engine rejects the pair, or a configuration holding exactly the
given chain and key is produced, with an empty ALPN list (rustls's default)
and no client authentication. -/
def with_single_cert (engine : TlsEngine) (cert_chain : List Bytes) (key : Bytes) :
    Except TlsBuildError ServerConfig :=
  match engine.single_cert_err cert_chain key with
  | some e => .error (.TlsConfigError e)
  | none =>
    .ok { cert_chain := cert_chain, key := key,
          client_auth_required := false, alpn_protocols := [] }

/-- `get_tlsacceptor_from_readers` (Operation C): decode all certificates,
read exactly one key block, classify it, build the configuration through the
engine, set the ALPN list from the selector, and wrap the result. -/
def get_tlsacceptor_from_readers (engine : TlsEngine)
    (cert_reader key_reader : PemStream) (protocol : HttpProtocol) :
    Except TlsBuildError TlsAcceptor :=
  match certs cert_reader with
  | .error e => .error (.PemParseError e)
  | .ok certList =>
    match read_one key_reader with
    | .error e => .error (.PemParseError e)
    | .ok none => .error (.NoKeyDataError "no valid pem data in key data")
    | .ok (some item) =>
      match item with
      | .ECKey data | .RSAKey data | .PKCS8Key data =>
        match with_single_cert engine certList data with
        | .error e => .error e
        | .ok cfg =>
          .ok ⟨{ cfg with alpn_protocols :=
            match protocol with
            | .Http1 => [asciiBytes "http/1.1", asciiBytes "http/1.0"]
            | .Http2 => [asciiBytes "h2"]
            | .Both =>
              [asciiBytes "h2", asciiBytes "http/1.1", asciiBytes "http/1.0"] }⟩
      | _ => .error (.UnsupportedKeyKindError "no private key in key data")

/-- `get_tlsacceptor_from_pem_data` (Operation A): treat the two strings as
byte streams and delegate to the reader-based builder.  `scan` is the
external PEM scanner applied to a string source (the composition of
`BufReader::new(Cursor::new(...))` with `rustls_pemfile`'s block scanning). -/
def get_tlsacceptor_from_pem_data (engine : TlsEngine) (scan : String → PemStream)
    (cert_data key_data : String) (protocol : HttpProtocol) :
    Except TlsBuildError TlsAcceptor :=
  get_tlsacceptor_from_readers engine (scan cert_data) (scan key_data) protocol

/-- `get_tlsacceptor_from_files` (Operation B): open the certificate file,
then the key file, then delegate to the reader-based builder.  `fs` models
`File::open` composed with the scanner: `fs path` is the stream of decoded
blocks of the file at `path`, or an error when the file cannot be opened. -/
def get_tlsacceptor_from_files (engine : TlsEngine)
    (fs : String → Except String PemStream) (cert_path key_path : String)
    (protocol : HttpProtocol) : Except TlsBuildError TlsAcceptor :=
  match fs cert_path with
  | .error e => .error (.IoError e)
  | .ok cert_file =>
    match fs key_path with
    | .error e => .error (.IoError e)
    | .ok key_file =>
      get_tlsacceptor_from_readers engine cert_file key_file protocol

/-! ## Helper definitions and lemmas -/

/-- The ALPN table of §4.1 Step 3, exactly as the `match` in the source
writes it. -/
def alpn_for : HttpProtocol → List Bytes
  | .Http1 => [asciiBytes "http/1.1", asciiBytes "http/1.0"]
  | .Http2 => [asciiBytes "h2"]
  | .Both => [asciiBytes "h2", asciiBytes "http/1.1", asciiBytes "http/1.0"]

/-- The payloads of the `CERTIFICATE` blocks of a stream, in the order they
occur, keeping duplicates. -/
def cert_blocks (s : PemStream) : List Bytes :=
  s.filterMap fun e =>
    match e with
    | .ok (.X509Certificate d) => some d
    | _ => none

/-- The part of `get_tlsacceptor_from_readers` before the ALPN assignment
(source steps 1–4), factored out so that the proofs below can separate the
selector-independent pipeline from the ALPN write. -/
def build_config (engine : TlsEngine) (cert_reader key_reader : PemStream) :
    Except TlsBuildError ServerConfig :=
  match certs cert_reader with
  | .error e => .error (.PemParseError e)
  | .ok certList =>
    match read_one key_reader with
    | .error e => .error (.PemParseError e)
    | .ok none => .error (.NoKeyDataError "no valid pem data in key data")
    | .ok (some item) =>
      match item with
      | .ECKey data | .RSAKey data | .PKCS8Key data =>
        with_single_cert engine certList data
      | _ => .error (.UnsupportedKeyKindError "no private key in key data")

theorem get_eq_build_config (engine : TlsEngine) (cr kr : PemStream)
    (p : HttpProtocol) :
    get_tlsacceptor_from_readers engine cr kr p =
      (build_config engine cr kr).map
        (fun cfg => ⟨{ cfg with alpn_protocols := alpn_for p }⟩) := by
  cases hc : certs cr with
  | error e =>
    simp [get_tlsacceptor_from_readers, build_config, hc, Except.map]
  | ok cs =>
    cases hk : read_one kr with
    | error e =>
      simp [get_tlsacceptor_from_readers, build_config, hc, hk, Except.map]
    | ok oi =>
      cases oi with
      | none =>
        simp [get_tlsacceptor_from_readers, build_config, hc, hk, Except.map]
      | some it =>
        cases it with
        | X509Certificate d =>
          simp [get_tlsacceptor_from_readers, build_config, hc, hk, Except.map]
        | Crl d =>
          simp [get_tlsacceptor_from_readers, build_config, hc, hk, Except.map]
        | ECKey d | RSAKey d | PKCS8Key d =>
          cases hs : engine.single_cert_err cs d with
          | some m =>
            simp [get_tlsacceptor_from_readers, build_config, with_single_cert,
              hc, hk, hs, Except.map]
          | none =>
            cases p <;>
              simp [get_tlsacceptor_from_readers, build_config, with_single_cert,
                hc, hk, hs, Except.map, alpn_for]

theorem certs_ok_eq_cert_blocks (s : PemStream) :
    ∀ cs, certs s = .ok cs → cs = cert_blocks s := by
  induction s with
  | nil =>
    intro cs h
    simp only [certs] at h
    cases h
    rfl
  | cons e rest ih =>
    intro cs h
    cases e with
    | error m =>
      simp only [certs] at h
      exact Except.noConfusion h
    | ok i =>
      cases i with
      | X509Certificate d =>
        simp only [certs] at h
        cases hr : certs rest with
        | error m => rw [hr] at h; exact absurd h (by simp [Except.map])
        | ok cs' =>
          rw [hr] at h
          simp only [Except.map, Except.ok.injEq] at h
          subst h
          simp only [cert_blocks, List.filterMap_cons]
          exact congrArg (d :: ·) (ih cs' hr)
      | RSAKey d =>
        simp only [certs] at h
        simp only [cert_blocks, List.filterMap_cons]
        exact ih cs h
      | PKCS8Key d =>
        simp only [certs] at h
        simp only [cert_blocks, List.filterMap_cons]
        exact ih cs h
      | ECKey d =>
        simp only [certs] at h
        simp only [cert_blocks, List.filterMap_cons]
        exact ih cs h
      | Crl d =>
        simp only [certs] at h
        simp only [cert_blocks, List.filterMap_cons]
        exact ih cs h

theorem certs_of_no_cert_blocks (s : PemStream)
    (h : ∀ e ∈ s, ∃ i, e = .ok i ∧ i.is_certificate = false) :
    certs s = .ok [] := by
  induction s with
  | nil => rfl
  | cons e rest ih =>
    have hr := ih (fun e' he' => h e' (List.mem_cons_of_mem _ he'))
    obtain ⟨i, he, hi⟩ := h e (List.mem_cons_self _ _)
    subst he
    cases i with
    | X509Certificate d => simp [Item.is_certificate] at hi
    | RSAKey d => simpa only [certs] using hr
    | PKCS8Key d => simpa only [certs] using hr
    | ECKey d => simpa only [certs] using hr
    | Crl d => simpa only [certs] using hr

/-- An engine that accepts every certificate/key pair. -/
def acceptAllEngine : TlsEngine := ⟨fun _ _ => none⟩

/-- An engine that rejects every certificate/key pair with a fixed message. -/
def rejectAllEngine : TlsEngine := ⟨fun _ _ => some "invalid certificate/key pair"⟩

/-- The acceptor built by the accepting engine from one certificate block
`[48, 1]`, one RSA key block `[48, 2]`, and selector `Both`; used by the
witnesses below. -/
def sampleBothAcceptor : TlsAcceptor :=
  ⟨{ cert_chain := [[48, 1]], key := [48, 2], client_auth_required := false,
     alpn_protocols := [asciiBytes "h2", asciiBytes "http/1.1", asciiBytes "http/1.0"] }⟩

/-! ## Claims -/

/-- Claim C1: for every certificate/key input pair on which construction
succeeds, the ALPN protocol list of the resulting configuration is exactly
the ordered list determined by the protocol selector: `["http/1.1",
"http/1.0"]` for `Http1`, `["h2"]` for `Http2`, and `["h2", "http/1.1",
"http/1.0"]` for `Both`, in those orders. -/
theorem C1_alpn_list_matches_selector (engine : TlsEngine)
    (cert_reader key_reader : PemStream) (protocol : HttpProtocol)
    (acceptor : TlsAcceptor)
    (h : get_tlsacceptor_from_readers engine cert_reader key_reader protocol =
      .ok acceptor) :
    acceptor.config.alpn_protocols =
      match protocol with
      | .Http1 => [asciiBytes "http/1.1", asciiBytes "http/1.0"]
      | .Http2 => [asciiBytes "h2"]
      | .Both => [asciiBytes "h2", asciiBytes "http/1.1", asciiBytes "http/1.0"] := by
  rw [get_eq_build_config] at h
  cases hb : build_config engine cert_reader key_reader with
  | error e => rw [hb] at h; exact absurd h (by simp [Except.map])
  | ok cfg =>
    rw [hb] at h
    simp only [Except.map, Except.ok.injEq] at h
    subst h
    cases protocol <;> rfl

/-- Witness for C1: the concrete run with one certificate block, one RSA key
block and selector `Both`. -/
theorem C1_witness :
    sampleBothAcceptor.config.alpn_protocols =
      match HttpProtocol.Both with
      | .Http1 => [asciiBytes "http/1.1", asciiBytes "http/1.0"]
      | .Http2 => [asciiBytes "h2"]
      | .Both => [asciiBytes "h2", asciiBytes "http/1.1", asciiBytes "http/1.0"] :=
  C1_alpn_list_matches_selector acceptAllEngine [.ok (.X509Certificate [48, 1])]
    [.ok (.RSAKey [48, 2])] .Both sampleBothAcceptor rfl

/-- Counterexample to claim C2 as stated: the key stream `[]` yields no PEM
block, yet with a certificate stream of malformed framing construction
returns `PemParseError`, not `NoKeyDataError` — the certificate step runs
first. -/
theorem C2_counterexample :
    get_tlsacceptor_from_readers acceptAllEngine [.error "bad cert pem"] []
        .Http1 = .error (.PemParseError "bad cert pem") ∧
      get_tlsacceptor_from_readers acceptAllEngine [.error "bad cert pem"] []
        .Http1 ≠ .error (.NoKeyDataError "no valid pem data in key data") :=
  ⟨rfl, by intro h; injection h with h; injection h⟩

/-- Claim C2 (amended): provided the certificate stream decodes without a
PEM parse error, every key stream that yields no PEM block at all (empty or
fully malformed input) makes construction return the `NoKeyDataError`
failure, and no acceptor is produced. -/
theorem C2_no_key_data (engine : TlsEngine) (cert_reader key_reader : PemStream)
    (protocol : HttpProtocol) (cs : List Bytes)
    (h : certs cert_reader = .ok cs) (hk : read_one key_reader = .ok none) :
    get_tlsacceptor_from_readers engine cert_reader key_reader protocol =
      .error (.NoKeyDataError "no valid pem data in key data") := by
  simp [get_tlsacceptor_from_readers, h, hk]

/-- Witness for C2 (amended): the concrete run with an empty certificate
stream and an empty key stream. -/
theorem C2_witness :
    get_tlsacceptor_from_readers acceptAllEngine [] [] .Http1 =
      .error (.NoKeyDataError "no valid pem data in key data") :=
  C2_no_key_data acceptAllEngine [] [] .Http1 [] rfl rfl

/-- Counterexample to claim C3 as stated: the key stream's first decoded
block is a `CERTIFICATE` block, yet with a certificate stream of malformed
framing construction returns `PemParseError`, not `UnsupportedKeyKindError`
— the certificate step runs first. -/
theorem C3_counterexample :
    get_tlsacceptor_from_readers acceptAllEngine [.error "bad cert pem"]
        [.ok (.X509Certificate [48, 3])] .Http1 =
      .error (.PemParseError "bad cert pem") ∧
      get_tlsacceptor_from_readers acceptAllEngine [.error "bad cert pem"]
        [.ok (.X509Certificate [48, 3])] .Http1 ≠
        .error (.UnsupportedKeyKindError "no private key in key data") :=
  ⟨rfl, by intro h; injection h with h; injection h⟩

/-- Claim C3 (amended): provided the certificate stream decodes without a
PEM parse error, whenever the first decoded block of the key stream is a
recognized PEM construct that is not an EC, RSA, or PKCS8 private key,
construction fails with `UnsupportedKeyKindError`; this holds for every
continuation of the key stream, so only the first block is examined and no
later block is scanned for a valid key. -/
theorem C3_unsupported_key_kind (engine : TlsEngine) (cert_reader : PemStream)
    (protocol : HttpProtocol) (cs : List Bytes) (it : Item) (rest : PemStream)
    (h : certs cert_reader = .ok cs) (hit : it.is_key_kind = false) :
    get_tlsacceptor_from_readers engine cert_reader (.ok it :: rest) protocol =
      .error (.UnsupportedKeyKindError "no private key in key data") := by
  cases it with
  | X509Certificate d => simp [get_tlsacceptor_from_readers, read_one, h]
  | Crl d => simp [get_tlsacceptor_from_readers, read_one, h]
  | ECKey d => simp [Item.is_key_kind] at hit
  | RSAKey d => simp [Item.is_key_kind] at hit
  | PKCS8Key d => simp [Item.is_key_kind] at hit

/-- Witness for C3 (amended): the first key block is a certificate block and
a perfectly valid RSA key block follows it; construction still fails with
`UnsupportedKeyKindError`. -/
theorem C3_witness :
    get_tlsacceptor_from_readers acceptAllEngine []
      [.ok (.X509Certificate [48, 3]), .ok (.RSAKey [48, 2])] .Http2 =
      .error (.UnsupportedKeyKindError "no private key in key data") :=
  C3_unsupported_key_kind acceptAllEngine [] .Http2 [] (.X509Certificate [48, 3])
    [.ok (.RSAKey [48, 2])] rfl rfl

/-- Claim C4: when the first key block decodes to an EC, RSA, or PKCS8
private key, its raw DER bytes become the private key entry, and which of
the three kinds it was has no effect on the resulting configuration: all
three kinds give identical results, and on success the configuration's key
is exactly the block's payload. -/
theorem C4_key_kind_discarded (engine : TlsEngine) (cert_reader : PemStream)
    (rest : PemStream) (d : Bytes) (protocol : HttpProtocol) :
    (get_tlsacceptor_from_readers engine cert_reader
        (.ok (.ECKey d) :: rest) protocol =
      get_tlsacceptor_from_readers engine cert_reader
        (.ok (.RSAKey d) :: rest) protocol ∧
      get_tlsacceptor_from_readers engine cert_reader
        (.ok (.RSAKey d) :: rest) protocol =
        get_tlsacceptor_from_readers engine cert_reader
          (.ok (.PKCS8Key d) :: rest) protocol) ∧
    ∀ acceptor,
      get_tlsacceptor_from_readers engine cert_reader
          (.ok (.ECKey d) :: rest) protocol = .ok acceptor →
        acceptor.config.key = d := by
  refine ⟨⟨?_, ?_⟩, ?_⟩
  · cases hc : certs cert_reader <;>
      simp [get_tlsacceptor_from_readers, read_one, hc]
  · cases hc : certs cert_reader <;>
      simp [get_tlsacceptor_from_readers, read_one, hc]
  · intro acceptor h
    cases hc : certs cert_reader with
    | error e =>
      simp [get_tlsacceptor_from_readers, read_one, hc] at h
    | ok cs =>
      cases hs : engine.single_cert_err cs d with
      | some m =>
        simp [get_tlsacceptor_from_readers, read_one, with_single_cert,
          hc, hs] at h
      | none =>
        simp [get_tlsacceptor_from_readers, read_one, with_single_cert,
          hc, hs] at h
        subst h
        rfl

/-- Witness for C4: a concrete successful run from an EC key block; the
configuration's private key is the block's payload. -/
theorem C4_witness :
    (TlsAcceptor.mk { cert_chain := [], key := [5, 5],
                      client_auth_required := false,
                      alpn_protocols := [asciiBytes "h2"] }).config.key =
      [5, 5] :=
  (C4_key_kind_discarded acceptAllEngine [] [] [5, 5] .Http2).2
    ⟨{ cert_chain := [], key := [5, 5], client_auth_required := false,
       alpn_protocols := [asciiBytes "h2"] }⟩ rfl

/-- Claim C5: a certificate stream containing zero valid `CERTIFICATE`
blocks and no malformed framing does not fail at the decoding step: the
empty certificate list is produced and passed on to the engine's
configuration builder; the engine's rejection of that empty list surfaces as
`TlsConfigError` with the engine's message, and its acceptance yields an
acceptor whose certificate chain is empty. -/
theorem C5_empty_cert_list_reaches_engine (engine : TlsEngine)
    (cert_reader : PemStream)
    (hcr : ∀ e ∈ cert_reader, ∃ i, e = .ok i ∧ i.is_certificate = false)
    (it : Item) (rest : PemStream) (protocol : HttpProtocol)
    (hit : it.is_key_kind = true) :
    certs cert_reader = .ok [] ∧
    (∀ m, engine.single_cert_err [] it.data = some m →
      get_tlsacceptor_from_readers engine cert_reader (.ok it :: rest)
          protocol = .error (.TlsConfigError m)) ∧
    (engine.single_cert_err [] it.data = none →
      ∃ acceptor,
        get_tlsacceptor_from_readers engine cert_reader (.ok it :: rest)
            protocol = .ok acceptor ∧ acceptor.config.cert_chain = []) := by
  have hc := certs_of_no_cert_blocks cert_reader hcr
  refine ⟨hc, ?_, ?_⟩
  · intro m hm
    cases it with
    | X509Certificate d => simp [Item.is_key_kind] at hit
    | Crl d => simp [Item.is_key_kind] at hit
    | ECKey d | RSAKey d | PKCS8Key d =>
      simp only [Item.data] at hm
      simp [get_tlsacceptor_from_readers, read_one, with_single_cert, hc, hm]
  · intro hm
    cases it with
    | X509Certificate d => simp [Item.is_key_kind] at hit
    | Crl d => simp [Item.is_key_kind] at hit
    | ECKey d | RSAKey d | PKCS8Key d =>
      simp only [Item.data] at hm
      refine ⟨⟨{ cert_chain := [], key := d, client_auth_required := false,
                 alpn_protocols := alpn_for protocol }⟩, ?_, rfl⟩
      cases protocol <;>
        simp [get_tlsacceptor_from_readers, read_one, with_single_cert, hc,
          hm, alpn_for]

/-- Witness for C5: the certificate stream holds a single (skipped) RSA key
block and so decodes to zero certificates; the rejecting engine receives the
empty list and its rejection surfaces as `TlsConfigError`. -/
theorem C5_witness :
    get_tlsacceptor_from_readers rejectAllEngine [.ok (.RSAKey [48, 9])]
        [.ok (.ECKey [48, 2])] .Http1 =
      .error (.TlsConfigError "invalid certificate/key pair") :=
  (C5_empty_cert_list_reaches_engine rejectAllEngine [.ok (.RSAKey [48, 9])]
      (by intro e he
          simp only [List.mem_singleton] at he
          exact ⟨.RSAKey [48, 9], he, rfl⟩)
      (.ECKey [48, 2]) [] .Http1 rfl).2.1
    "invalid certificate/key pair" rfl

/-- Claim C6: for the file-path entry point, failure to open either file
yields `IoError` before any PEM parsing is attempted; in particular a
nonexistent certificate path yields `IoError` whatever the key path holds,
and an unopenable key file yields `IoError` as well. -/
theorem C6_file_open_failure_is_io_error (engine : TlsEngine)
    (fs : String → Except String PemStream) (cert_path key_path : String)
    (protocol : HttpProtocol) :
    (∀ m, fs cert_path = .error m →
      get_tlsacceptor_from_files engine fs cert_path key_path protocol =
        .error (.IoError m)) ∧
    (∀ s m, fs cert_path = .ok s → fs key_path = .error m →
      get_tlsacceptor_from_files engine fs cert_path key_path protocol =
        .error (.IoError m)) := by
  constructor
  · intro m hm
    simp [get_tlsacceptor_from_files, hm]
  · intro s m hs hm
    simp [get_tlsacceptor_from_files, hs, hm]

/-- Witness for C6: a filesystem on which no path opens; construction from
files fails with `IoError` carrying the open error. -/
theorem C6_witness :
    get_tlsacceptor_from_files acceptAllEngine
        (fun _ => .error "No such file or directory (os error 2)") "cert.pem"
        "key.pem" .Http1 =
      .error (.IoError "No such file or directory (os error 2)") :=
  (C6_file_open_failure_is_io_error acceptAllEngine
      (fun _ => .error "No such file or directory (os error 2)") "cert.pem"
      "key.pem" .Http1).1 "No such file or directory (os error 2)" rfl

/-- Claim C7: the in-memory entry point treats its two strings as byte
streams and delegates to the shared reader-based builder, adding no
validation of its own: for every pair of strings, every scanner, every
engine and every selector, the two results — success value or failure —
coincide exactly. -/
theorem C7_pem_data_delegates_to_readers (engine : TlsEngine)
    (scan : String → PemStream) (cert_data key_data : String)
    (protocol : HttpProtocol) :
    get_tlsacceptor_from_pem_data engine scan cert_data key_data protocol =
      get_tlsacceptor_from_readers engine (scan cert_data) (scan key_data)
        protocol := rfl

/-- Claim C8: every failure is surfaced immediately to the caller as a typed
failure value — one of the five tagged kinds — carrying the human-readable
cause of its origin, and nothing is swallowed or retried: a certificate
parse error, a key parse error, a missing key block, an unsupported key
kind, and an engine rejection each propagate to the output as their variant
with their original message; the in-memory entry point adds no handling, the
file entry point only maps open failures to `IoError` and otherwise
delegates; and `TlsBuildError.message` recovers the cause from every
variant. -/
theorem C8_errors_surfaced_with_cause (engine : TlsEngine) (cr kr : PemStream)
    (p : HttpProtocol) (scan : String → PemStream)
    (fs : String → Except String PemStream) (cd kd cp kp : String) :
    (∀ m, certs cr = .error m →
      get_tlsacceptor_from_readers engine cr kr p =
        .error (.PemParseError m)) ∧
    (∀ cs m, certs cr = .ok cs → read_one kr = .error m →
      get_tlsacceptor_from_readers engine cr kr p =
        .error (.PemParseError m)) ∧
    (∀ cs, certs cr = .ok cs → read_one kr = .ok none →
      get_tlsacceptor_from_readers engine cr kr p =
        .error (.NoKeyDataError "no valid pem data in key data")) ∧
    (∀ cs it, certs cr = .ok cs → read_one kr = .ok (some it) →
        it.is_key_kind = false →
      get_tlsacceptor_from_readers engine cr kr p =
        .error (.UnsupportedKeyKindError "no private key in key data")) ∧
    (∀ cs it m, certs cr = .ok cs → read_one kr = .ok (some it) →
        it.is_key_kind = true → engine.single_cert_err cs it.data = some m →
      get_tlsacceptor_from_readers engine cr kr p =
        .error (.TlsConfigError m)) ∧
    (get_tlsacceptor_from_pem_data engine scan cd kd p =
      get_tlsacceptor_from_readers engine (scan cd) (scan kd) p) ∧
    (∀ m, fs cp = .error m →
      get_tlsacceptor_from_files engine fs cp kp p = .error (.IoError m)) ∧
    (∀ s t, fs cp = .ok s → fs kp = .ok t →
      get_tlsacceptor_from_files engine fs cp kp p =
        get_tlsacceptor_from_readers engine s t p) ∧
    (∀ m, (TlsBuildError.IoError m).message = m ∧
      (TlsBuildError.PemParseError m).message = m ∧
      (TlsBuildError.NoKeyDataError m).message = m ∧
      (TlsBuildError.UnsupportedKeyKindError m).message = m ∧
      (TlsBuildError.TlsConfigError m).message = m) := by
  refine ⟨?_, ?_, ?_, ?_, ?_, rfl, ?_, ?_, ?_⟩
  · intro m hm
    simp [get_tlsacceptor_from_readers, hm]
  · intro cs m hcs hk
    simp [get_tlsacceptor_from_readers, hcs, hk]
  · intro cs hcs hk
    simp [get_tlsacceptor_from_readers, hcs, hk]
  · intro cs it hcs hk hit
    cases it with
    | ECKey d => simp [Item.is_key_kind] at hit
    | RSAKey d => simp [Item.is_key_kind] at hit
    | PKCS8Key d => simp [Item.is_key_kind] at hit
    | X509Certificate d => simp [get_tlsacceptor_from_readers, hcs, hk]
    | Crl d => simp [get_tlsacceptor_from_readers, hcs, hk]
  · intro cs it m hcs hk hit hm
    cases it with
    | X509Certificate d => simp [Item.is_key_kind] at hit
    | Crl d => simp [Item.is_key_kind] at hit
    | ECKey d | RSAKey d | PKCS8Key d =>
      simp only [Item.data] at hm
      simp [get_tlsacceptor_from_readers, with_single_cert, hcs, hk, hm]
  · intro m hm
    simp [get_tlsacceptor_from_files, hm]
  · intro s t hs ht
    simp [get_tlsacceptor_from_files, hs, ht]
  · intro m
    exact ⟨rfl, rfl, rfl, rfl, rfl⟩

/-- Witness for C8: with a certificate stream of malformed framing, the
scanner's message is surfaced unchanged inside `PemParseError`. -/
theorem C8_witness :
    get_tlsacceptor_from_readers acceptAllEngine [.error "bad pem framing"]
        [.ok (.RSAKey [48, 2])] .Both =
      .error (.PemParseError "bad pem framing") :=
  (C8_errors_surfaced_with_cause acceptAllEngine [.error "bad pem framing"]
      [.ok (.RSAKey [48, 2])] .Both (fun _ => []) (fun _ => .ok []) "" "" ""
      "").1 "bad pem framing" rfl

/-- Claim C9: whenever construction succeeds, the certificate entries of the
configuration are exactly the `CERTIFICATE` blocks decoded from the
certificate stream, in the order encountered, with no reordering and no
deduplication of repeated entries. -/
theorem C9_cert_entries_in_stream_order (engine : TlsEngine)
    (cr kr : PemStream) (p : HttpProtocol) (acceptor : TlsAcceptor)
    (h : get_tlsacceptor_from_readers engine cr kr p = .ok acceptor) :
    acceptor.config.cert_chain = cert_blocks cr := by
  rw [get_eq_build_config] at h
  cases hc : certs cr with
  | error e =>
    simp [build_config, hc, Except.map] at h
  | ok cs =>
    cases hk : read_one kr with
    | error e =>
      simp [build_config, hc, hk, Except.map] at h
    | ok oi =>
      cases oi with
      | none =>
        simp [build_config, hc, hk, Except.map] at h
      | some it =>
        cases it with
        | X509Certificate d => simp [build_config, hc, hk, Except.map] at h
        | Crl d => simp [build_config, hc, hk, Except.map] at h
        | ECKey d | RSAKey d | PKCS8Key d =>
          cases hs : engine.single_cert_err cs d with
          | some m =>
            simp [build_config, with_single_cert, hc, hk, hs,
              Except.map] at h
          | none =>
            simp only [build_config, with_single_cert, hc, hk, hs,
              Except.map, Except.ok.injEq] at h
            subst h
            exact certs_ok_eq_cert_blocks cr cs hc

/-- Witness for C9: the certificate stream holds a duplicated certificate
block, an interleaved (skipped) RSA key block, and a third certificate; the
chain keeps the duplicates and the order. -/
theorem C9_witness :
    (TlsAcceptor.mk { cert_chain := [[48, 7], [48, 7], [48, 3]],
                      key := [48, 2], client_auth_required := false,
                      alpn_protocols := [asciiBytes "http/1.1",
                        asciiBytes "http/1.0"] }).config.cert_chain =
      cert_blocks [.ok (.X509Certificate [48, 7]), .ok (.RSAKey [48, 9]),
        .ok (.X509Certificate [48, 7]), .ok (.X509Certificate [48, 3])] :=
  C9_cert_entries_in_stream_order acceptAllEngine
    [.ok (.X509Certificate [48, 7]), .ok (.RSAKey [48, 9]),
      .ok (.X509Certificate [48, 7]), .ok (.X509Certificate [48, 3])]
    [.ok (.ECKey [48, 2])] .Http1
    ⟨{ cert_chain := [[48, 7], [48, 7], [48, 3]], key := [48, 2],
       client_auth_required := false,
       alpn_protocols := [asciiBytes "http/1.1", asciiBytes "http/1.0"] }⟩
    rfl

/-- Claim C10: for a fixed certificate/key input, the protocol selector has
no influence on whether construction succeeds or which error it returns: two
runs with any two selectors fail with exactly the same failures, and on
success the resulting configurations agree on the certificate chain, the
key, and the client-auth policy, differing only in the ALPN list, which is
each selector's table entry. -/
theorem C10_selector_noninterference (engine : TlsEngine) (cr kr : PemStream)
    (p1 p2 : HttpProtocol) :
    (∀ e, get_tlsacceptor_from_readers engine cr kr p1 = .error e ↔
      get_tlsacceptor_from_readers engine cr kr p2 = .error e) ∧
    (∀ a1 a2, get_tlsacceptor_from_readers engine cr kr p1 = .ok a1 →
      get_tlsacceptor_from_readers engine cr kr p2 = .ok a2 →
      a1.config.cert_chain = a2.config.cert_chain ∧
        a1.config.key = a2.config.key ∧
        a1.config.client_auth_required = a2.config.client_auth_required ∧
        a1.config.alpn_protocols = alpn_for p1 ∧
        a2.config.alpn_protocols = alpn_for p2) := by
  have e1 := get_eq_build_config engine cr kr p1
  have e2 := get_eq_build_config engine cr kr p2
  cases hb : build_config engine cr kr with
  | error e0 =>
    rw [hb] at e1 e2
    constructor
    · intro e
      rw [e1, e2]
      simp [Except.map]
    · intro a1 a2 h1 h2
      rw [e1] at h1
      exact absurd h1 (by simp [Except.map])
  | ok cfg =>
    rw [hb] at e1 e2
    simp only [Except.map] at e1 e2
    constructor
    · intro e
      rw [e1, e2]
      constructor <;> (intro h; exact absurd h (by simp))
    · intro a1 a2 h1 h2
      rw [e1] at h1
      rw [e2] at h2
      injection h1 with h1
      injection h2 with h2
      subst h1
      subst h2
      exact ⟨rfl, rfl, rfl, rfl, rfl⟩

/-- The acceptor produced from one certificate block and one RSA key block
with selector `Http1`; used by the C10 witness. -/
def sampleHttp1Acceptor : TlsAcceptor :=
  ⟨{ cert_chain := [[48, 1]], key := [48, 2], client_auth_required := false,
     alpn_protocols := alpn_for .Http1 }⟩

/-- The same acceptor with selector `Http2`; used by the C10 witness. -/
def sampleHttp2Acceptor : TlsAcceptor :=
  ⟨{ cert_chain := [[48, 1]], key := [48, 2], client_auth_required := false,
     alpn_protocols := alpn_for .Http2 }⟩

/-- Witness for C10: with the accepting engine, the `Http1` and `Http2` runs
both succeed and their configurations agree on everything but the ALPN
list. -/
theorem C10_witness :
    sampleHttp1Acceptor.config.cert_chain =
        sampleHttp2Acceptor.config.cert_chain ∧
      sampleHttp1Acceptor.config.key = sampleHttp2Acceptor.config.key ∧
      sampleHttp1Acceptor.config.client_auth_required =
        sampleHttp2Acceptor.config.client_auth_required ∧
      sampleHttp1Acceptor.config.alpn_protocols = alpn_for .Http1 ∧
      sampleHttp2Acceptor.config.alpn_protocols = alpn_for .Http2 :=
  (C10_selector_noninterference acceptAllEngine
      [.ok (.X509Certificate [48, 1])] [.ok (.RSAKey [48, 2])] .Http1
      .Http2).2 sampleHttp1Acceptor sampleHttp2Acceptor rfl rfl

end FlexTls
